import Mathlib

/-!
Shallow embedding of `src/backend/services/voice_bot_client.py`: the resilient
authenticated Voice Bot API client (JWT token lifecycle, Redis response cache,
tenacity retry decorator, error translation, `_make_request` orchestration, and
`health_check`). Time is modelled as `Int` seconds; `datetime` instants become
absolute second counts, `timedelta(minutes=m)` becomes `60 * m`.
-/

namespace VoiceBot

/-- A JSON object payload (Python `Dict[str, Any]`), modelled as an association
list with string values. -/
abbrev Payload := List (String × String)

/-- Model of `VoiceBotConfig`: pydantic model, frozen. Fields mirror the Python class with
its declared defaults. -/
structure VoiceBotConfig where
  base_url : String
  jwt_secret : String
  jwt_algorithm : String := "HS256"
  jwt_expire_minutes : Int := 30
  internal_service_token : Option String := none
  timeout : Int := 30
  max_retries : Int := 3
  cache_ttl : Int := 300
  deriving DecidableEq, Repr

/-- Pydantic construction of `VoiceBotConfig`. The Python model declares plain
`str` / `int` fields with no validators and no constrained types, so every
well-typed combination of field values is accepted; the `Option` result models
the possibility of a pydantic `ValidationError`, which cannot occur for
well-typed inputs. -/
def mkVoiceBotConfig (base_url jwt_secret jwt_algorithm : String)
    (jwt_expire_minutes : Int) (internal_service_token : Option String)
    (timeout max_retries cache_ttl : Int) : Option VoiceBotConfig :=
  some ⟨base_url, jwt_secret, jwt_algorithm, jwt_expire_minutes,
        internal_service_token, timeout, max_retries, cache_ttl⟩

/-- Model of `CachedResponse`: cached API response with metadata. -/
structure CachedResponse where
  data : Payload
  cached_at : Int
  expires_at : Int
  deriving DecidableEq, Repr

/-- Model of `VoiceBotAPIError`: the typed error raised by the client.
`str(e)` of such an error is its `message` (set via `super().__init__`). -/
structure VoiceBotAPIError where
  message : String
  status_code : Option Nat := none
  response_data : Option Payload := none
  deriving DecidableEq, Repr

/-- The client's mutable token fields `_jwt_token` / `_token_expires_at`. -/
structure TokenState where
  jwt_token : Option String
  token_expires_at : Option Int
  deriving DecidableEq, Repr

/-- The claim set signed by `_generate_jwt_token`. -/
structure JwtPayload where
  sub : String
  iat : Int
  exp : Int
  type : String
  permissions : List String
  iss : String
  deriving DecidableEq, Repr

/-- Model of `_generate_jwt_token`: builds the claim set, signs it (`encode` abstracts
`jwt.encode`, an arbitrary deterministic signer) and returns the token together
with the recorded `_token_expires_at = now + timedelta(minutes=jwt_expire_minutes)`. -/
def generateJwtToken (encode : JwtPayload → String → String → String)
    (cfg : VoiceBotConfig) (now : Int) : String × Int :=
  let expires_at := now + 60 * cfg.jwt_expire_minutes
  (encode ⟨"dashboard-api", now, expires_at, "service",
     ["dashboard:read", "dashboard:write"], "replytics-dashboard"⟩
     cfg.jwt_secret cfg.jwt_algorithm,
   expires_at)

/-- The `needs_refresh` condition of `_get_auth_headers`: no token, no recorded
expiry, or `now >= expiry - timedelta(minutes=5)`. -/
def needsRefresh (now : Int) (st : TokenState) : Bool :=
  st.jwt_token.isNone || st.token_expires_at.isNone ||
    (match st.token_expires_at with
     | none => true
     | some e => decide (now ≥ e - 300))

/-- Rendering of `f"Bearer {self._jwt_token}"`: Python formats `None` as "None". -/
def tokenStr : Option String → String
  | some t => t
  | none => "None"

/-- Model of `_get_auth_headers`: refresh the token when needed (under the lock), then
build the header list. Returns (headers, new token state, whether a token was
generated). The `X-Service-Token` header is added only when
`internal_service_token` is truthy (present and non-empty). -/
def getAuthHeaders (encode : JwtPayload → String → String → String)
    (cfg : VoiceBotConfig) (now : Int) (st : TokenState) :
    List (String × String) × TokenState × Bool :=
  let st2 := if needsRefresh now st then
      let g := generateJwtToken encode cfg now
      TokenState.mk (some g.1) (some g.2)
    else st
  let headers := [("Authorization", "Bearer " ++ tokenStr st2.jwt_token)]
  let headers := match cfg.internal_service_token with
    | some t => if t = "" then headers else headers ++ [("X-Service-Token", t)]
    | none => headers
  (headers, st2, needsRefresh now st)

/-- Minimal JSON string escaping used by `json.dumps` for the characters that
can occur in keys/values here. -/
def jsonEscape (s : String) : String :=
  s.foldl (fun acc c =>
    if c = '\\' then acc ++ "\\\\"
    else if c = '"' then acc ++ "\\\""
    else acc ++ String.singleton c) ""

/-- A JSON string literal. -/
def jsonStr (s : String) : String := "\"" ++ jsonEscape s ++ "\""

/-- Key comparison used to model `sort_keys=True`. -/
def keyLE (a b : String × String) : Bool := decide (a.1 ≤ b.1)

/-- Rendering of `json.dumps(params, sort_keys=True, default=str)`: the object with
its keys in sorted order. -/
def sortedJson (params : Payload) : String :=
  "\x7b" ++ String.intercalate ", "
    ((params.mergeSort keyLE).map (fun p => jsonStr p.1 ++ ": " ++ jsonStr p.2)) ++ "\x7d"

/-- Model of `_cache_key`: deterministic cache key for endpoint and parameters.
`md5hex12` abstracts `hashlib.md5(...).hexdigest()[:12]`, an arbitrary
deterministic digest of the sorted serialization. An absent (`None`) parameter
dict and an empty one are both falsy in Python; both are modelled by `[]`. -/
def cacheKey (md5hex12 : String → String) (endpoint : String) (params : Payload) :
    String :=
  let base := "voice_bot:" ++ endpoint.replace "/" ":"
  if params.isEmpty then base
  else base ++ ":" ++ md5hex12 (sortedJson params)

/-- What the Redis backend does on a `_get_cached` lookup. -/
inductive CacheGetResult where
  | found (c : CachedResponse)
  | missing
  | corrupt
  | backendError
  deriving DecidableEq, Repr

/-- Model of `_get_cached`: returns (payload-or-miss, whether an expired-entry delete was
issued). Absent Redis client, a missing key, an unparseable entry
(`parse_raw` raising) and a raising backend (`redis.get` raising, swallowed by
the `except Exception` clause) are all misses. A found entry is returned only
when `now < expires_at`; otherwise it is a miss and the entry is deleted. -/
def getCached (hasRedis : Bool) (now : Int) (backend : CacheGetResult) :
    Option Payload × Bool :=
  if hasRedis then
    match backend with
    | .found c => if now < c.expires_at then (some c.data, false) else (none, true)
    | .missing => (none, false)
    | .corrupt => (none, false)
    | .backendError => (none, false)
  else (none, false)

/-- Model of `_set_cached`: the entry persisted by `redis.setex` as (ttl, entry), or
`none` when there is no Redis client or the backend raises (swallowed).
Python's `ttl = ttl or self.config.cache_ttl` treats a falsy (zero) override as
absent. -/
def setCached (hasRedis : Bool) (cfg : VoiceBotConfig) (now : Int) (d : Payload)
    (ttlArg : Option Int) (backendFails : Bool) : Option (Int × CachedResponse) :=
  if hasRedis then
    let ttl := match ttlArg with
      | some t => if t = 0 then cfg.cache_ttl else t
      | none => cfg.cache_ttl
    if backendFails then none
    else some (ttl, ⟨d, now, now + ttl⟩)
  else none

/-- Result of `response.json()` on an httpx response: a parsed object or a
raised `JSONDecodeError` (carrying its message). An empty body fails to parse. -/
inductive JsonBody where
  | parsed (p : Payload)
  | parseError (msg : String)
  deriving DecidableEq, Repr

/-- Outcome of one `client.request(...)` call: a response (status,
`response.content` truthiness, `response.json()` result, `response.text`), or a
raised exception (`httpx.TimeoutException`, another `httpx.HTTPError` such as a
connect error, or a non-httpx exception). -/
inductive NetOutcome where
  | response (status : Nat) (content : Bool) (body : JsonBody) (text : String)
  | raiseTimeout (text : String)
  | raiseTransport (text : String)
  | raiseOther (text : String)
  deriving DecidableEq, Repr

/-- Exceptions that can propagate out of the try-block of `_make_request`. -/
inductive PyExc where
  | api (e : VoiceBotAPIError)
  | httpStatusError (status : Nat) (content : Bool) (body : JsonBody) (text : String)
  | timeoutExc (text : String)
  | httpxOther (text : String)
  | otherExc (text : String)
  deriving DecidableEq, Repr

/-- Python `str(e)` for each modelled exception. -/
def PyExc.str : PyExc → String
  | .api e => e.message
  | .httpStatusError _ _ _ t => t
  | .timeoutExc t => t
  | .httpxOther t => t
  | .otherExc t => t

/-- Model of `error_data = response.json() if response.content else ...`: an empty body
yields `{}` without parsing; otherwise `response.json()` may raise. -/
def errorData (content : Bool) (body : JsonBody) : Except String Payload :=
  if content then
    match body with
    | .parsed d => Except.ok d
    | .parseError m => Except.error m
  else Except.ok []

/-- The try-block of `_make_request`: status-code dispatch on the response.
Returns the raised exception or the parsed payload, together with the token
state (cleared under the lock on 401 before raising). Statuses below 400 that
are not 2xx reach `response.raise_for_status()`, which in httpx raises
`HTTPStatusError` for any non-success status. -/
def requestTry (endpoint : String) (net : NetOutcome) (tk : TokenState) :
    Except PyExc Payload × TokenState :=
  match net with
  | .raiseTimeout t => (.error (.timeoutExc t), tk)
  | .raiseTransport t => (.error (.httpxOther t), tk)
  | .raiseOther t => (.error (.otherExc t), tk)
  | .response status content body text =>
    if status = 401 then
      (.error (.api ⟨"Authentication failed", some 401,
         some [("error", "Invalid or expired token")]⟩),
       ⟨none, none⟩)
    else if status = 404 then
      match errorData content body with
      | .ok d => (.error (.api ⟨"Endpoint not found: " ++ endpoint, some 404, some d⟩), tk)
      | .error m => (.error (.otherExc m), tk)
    else if status ≥ 400 then
      match errorData content body with
      | .ok d =>
        let msg := (d.lookup "detail").getD ((d.lookup "message").getD "API request failed")
        (.error (.api ⟨"API error: " ++ msg, some status, some d⟩), tk)
      | .error m => (.error (.otherExc m), tk)
    else if status < 200 ∨ status ≥ 300 then
      (.error (.httpStatusError status content body text), tk)
    else
      match body with
      | .parsed d => (.ok d, tk)
      | .parseError m => (.error (.otherExc m), tk)

/-- The except-clauses of `_make_request`. Every exception raised inside the
try-block — including the function's own `VoiceBotAPIError` raises, which match
none of the specific `httpx` clauses — is mapped to a new `VoiceBotAPIError`:
`httpx.HTTPStatusError` keeps its status code; `httpx.TimeoutException` maps to
a timeout error without status; everything else (the catch-all
`except Exception`) is wrapped with message `"Unexpected error for {method}
{endpoint}: {str(e)}"`, no status code, and `{"error": str(e)}`. -/
def translateExc (method endpoint : String) : PyExc → VoiceBotAPIError
  | .httpStatusError status _ body text =>
    let ed := match body with
      | .parsed d => d
      | .parseError _ => [("error", text)]
    ⟨"HTTP " ++ toString status ++ " error for " ++ method ++ " " ++ endpoint,
     some status, some ed⟩
  | .timeoutExc _ =>
    ⟨"Timeout error for " ++ method ++ " " ++ endpoint, none,
     some [("error", "Request timeout")]⟩
  | e =>
    ⟨"Unexpected error for " ++ method ++ " " ++ endpoint ++ ": " ++ e.str, none,
     some [("error", e.str)]⟩

/-- Model of `retry_if_exception_type((httpx.HTTPError, httpx.TimeoutException))`:
only unwrapped httpx exception types are retryable; `VoiceBotAPIError` and other
non-httpx exceptions are not. -/
def isRetryableExc : PyExc → Bool
  | .httpStatusError _ _ _ _ => true
  | .timeoutExc _ => true
  | .httpxOther _ => true
  | .api _ => false
  | .otherExc _ => false

/-- Arguments of `_make_request`, with the Python defaults. -/
structure ReqArgs where
  method : String
  endpoint : String
  params : Payload := []
  json_data : Option Payload := none
  use_cache : Bool := true
  cache_ttl : Option Int := none

/-- The environment of a call: the clock, the signer and digest functions, the
cache backend behaviour (what `redis.get` does for a given key) and the network
behaviour (indexed by how many requests have been sent). -/
structure Env where
  now : Int
  encode : JwtPayload → String → String → String
  md5hex12 : String → String
  hasRedis : Bool
  cacheGet : String → CacheGetResult
  cacheSetFails : Bool
  net : Nat → NetOutcome

/-- Client state threaded through a call, with observation counters:
network sends, token generations, `_get_cached` invocations, `_set_cached`
invocations, and the last entry actually persisted to the cache. -/
structure CallState where
  token : TokenState
  sends : Nat := 0
  tokenGens : Nat := 0
  cacheReads : Nat := 0
  cacheSetCalls : Nat := 0
  cacheWrite : Option (Int × CachedResponse) := none
  deriving DecidableEq, Repr

/-- Fresh per-call observation state over the client's current token state. -/
def initCallState (tk : TokenState) : CallState :=
  ⟨tk, 0, 0, 0, 0, none⟩

/-- The auth + send + translate + cache-store phase of one `_make_request`
attempt (everything after the cache check). `ckey` is the `cache_key` local
variable: `None` unless the cache-check branch ran. -/
def attemptSend (cfg : VoiceBotConfig) (env : Env) (args : ReqArgs)
    (ckey : Option String) (s : CallState) : Except PyExc Payload × CallState :=
  let ah := getAuthHeaders env.encode cfg env.now s.token
  let s1 : CallState := { s with
    token := ah.2.1,
    tokenGens := s.tokenGens + (if ah.2.2 then 1 else 0) }
  let outcome := env.net s1.sends
  let s2 : CallState := { s1 with sends := s1.sends + 1 }
  match requestTry args.endpoint outcome s2.token with
  | (.ok d, tk2) =>
    let s3 : CallState := { s2 with token := tk2 }
    if args.method == "GET" && args.use_cache && ckey.isSome then
      let w := setCached env.hasRedis cfg env.now d args.cache_ttl env.cacheSetFails
      (.ok d, { s3 with
        cacheSetCalls := s3.cacheSetCalls + 1,
        cacheWrite := (match w with | some e => some e | none => s3.cacheWrite) })
    else (.ok d, s3)
  | (.error e, tk2) =>
    (.error (.api (translateExc args.method args.endpoint e)), { s2 with token := tk2 })

/-- One execution of the decorated `_make_request` body: the cache is consulted
first for cacheable GETs (`method == "GET" and use_cache`), a hit returns
immediately, a miss proceeds to the send phase. The attempt number `n` is
tenacity bookkeeping; the body itself does not read it. -/
def makeRequestAttempt (cfg : VoiceBotConfig) (env : Env) (args : ReqArgs)
    (_n : Nat) (s : CallState) : Except PyExc Payload × CallState :=
  if args.method == "GET" && args.use_cache then
    let key := cacheKey env.md5hex12 args.endpoint args.params
    let got := getCached env.hasRedis env.now (env.cacheGet key)
    let s2 : CallState := { s with cacheReads := s.cacheReads + 1 }
    match got.1 with
    | some d => (.ok d, s2)
    | none => attemptSend cfg env args (some key) s2
  else attemptSend cfg env args none s

/-- tenacity `wait_exponential(multiplier, min, max)` evaluated after failed
attempt number `n`. -/
def waitExponential (multiplier lo hi : Int) (n : Nat) : Int :=
  max lo (min hi (multiplier * 2 ^ (n - 1)))

/-- The tenacity `@retry(..., reraise=True)` loop: run the attempt; on success
return; on a failure matching the retry predicate with attempts remaining,
sleep the wait and run again; otherwise reraise. Returns the final outcome and
state, the number of attempts performed, and the list of sleeps. -/
def tenacityGo (pred : PyExc → Bool) (wait : Nat → Int)
    (attempt : Nat → CallState → Except PyExc Payload × CallState) :
    Nat → Nat → CallState → (Except PyExc Payload × CallState) × Nat × List Int
  | 0, n, s => (attempt n s, 1, [])
  | 1, n, s => (attempt n s, 1, [])
  | k+2, n, s =>
    match attempt n s with
    | (.ok d, s2) => ((.ok d, s2), 1, [])
    | (.error e, s2) =>
      if pred e then
        let rest := tenacityGo pred wait attempt (k+1) (n+1) s2
        (rest.1, rest.2.1 + 1, wait n :: rest.2.2)
      else ((.error e, s2), 1, [])

/-- Model of `_make_request` as decorated: `stop_after_attempt(3)` (hardcoded, not
`config.max_retries`), `wait_exponential(multiplier=1, min=2, max=10)`,
retrying only httpx exception types, `reraise=True`. -/
def makeRequest (cfg : VoiceBotConfig) (env : Env) (args : ReqArgs)
    (s0 : CallState) : (Except PyExc Payload × CallState) × Nat × List Int :=
  tenacityGo isRetryableExc (waitExponential 1 2 10)
    (makeRequestAttempt cfg env args) 3 1 s0

/-- The dictionary returned by `health_check`. -/
structure HealthResult where
  status : String
  voice_bot : Option Payload := none
  error : Option String := none
  timestamp : Int
  deriving DecidableEq, Repr

/-- Model of `health_check`: `GET "/"` with `use_cache=False`; a successful response is
reported as "healthy" with the upstream payload, any exception is caught and
reported as "unhealthy" with `str(e)`. -/
def healthCheck (cfg : VoiceBotConfig) (env : Env) (tk : TokenState) :
    HealthResult × CallState :=
  let r := makeRequest cfg env ⟨"GET", "/", [], none, false, none⟩ (initCallState tk)
  match r.1.1 with
  | .ok d => (⟨"healthy", some d, none, env.now⟩, r.1.2)
  | .error e => (⟨"unhealthy", none, some e.str, env.now⟩, r.1.2)

/-! ## Helper lemmas -/

theorem keyLE_trans (a b c : String × String) (h1 : keyLE a b) (h2 : keyLE b c) :
    keyLE a c := by
  simp only [keyLE, decide_eq_true_eq] at *
  exact le_trans h1 h2

theorem keyLE_total (a b : String × String) : keyLE a b || keyLE b a := by
  simp only [keyLE, Bool.or_eq_true, decide_eq_true_eq]
  exact le_total a.1 b.1

instance : IsAntisymm (String × String) (fun a b => a.1 < b.1) :=
  ⟨fun _ _ h1 h2 => absurd h2 (asymm h1)⟩

/-- With pairwise-distinct keys, the merge sort of a parameter list is strictly
sorted by key. -/
theorem mergeSort_sorted_strict (p : Payload) (hnd : (p.map Prod.fst).Nodup) :
    List.Sorted (fun a b : String × String => a.1 < b.1) (p.mergeSort keyLE) := by
  have hs := @List.sorted_mergeSort (String × String) keyLE keyLE_trans keyLE_total p
  have hnd2 : ((p.mergeSort keyLE).map Prod.fst).Nodup :=
    (((List.mergeSort_perm p keyLE).map Prod.fst).nodup_iff).mpr hnd
  have hne : (p.mergeSort keyLE).Pairwise (fun a b => a.1 ≠ b.1) :=
    List.pairwise_map.mp hnd2
  exact (hs.and hne).imp (fun h =>
    lt_of_le_of_ne (of_decide_eq_true h.1) h.2)

/-- Every exception propagating out of the send phase has already been wrapped
into a `VoiceBotAPIError` by the except-clauses, so it never matches the
decorator's retry predicate. -/
theorem attemptSend_error_not_retryable (cfg : VoiceBotConfig) (env : Env)
    (args : ReqArgs) (ckey : Option String) (s : CallState) (e : PyExc)
    (h : (attemptSend cfg env args ckey s).1 = .error e) :
    isRetryableExc e = false := by
  simp only [attemptSend] at h
  split at h
  · split at h <;> simp_all
  · simp only [Prod.fst] at h
    cases h
    rfl

/-- Every exception propagating out of one `_make_request` attempt is a wrapped
`VoiceBotAPIError`, hence not retryable. -/
theorem makeRequestAttempt_error_not_retryable (cfg : VoiceBotConfig) (env : Env)
    (args : ReqArgs) (n : Nat) (s : CallState) (e : PyExc)
    (h : (makeRequestAttempt cfg env args n s).1 = .error e) :
    isRetryableExc e = false := by
  simp only [makeRequestAttempt] at h
  split at h
  · split at h
    · simp_all
    · exact attemptSend_error_not_retryable _ _ _ _ _ _ h
  · exact attemptSend_error_not_retryable _ _ _ _ _ _ h

/-- If every failure of the attempt body is non-retryable, the tenacity loop
performs exactly one attempt and sleeps nowhere, whatever the stop budget. -/
theorem tenacityGo_not_retryable (pred : PyExc → Bool) (wait : Nat → Int)
    (attempt : Nat → CallState → Except PyExc Payload × CallState)
    (hattempt : ∀ m t e, (attempt m t).1 = .error e → pred e = false) :
    ∀ (fuel n : Nat) (s : CallState),
      tenacityGo pred wait attempt fuel n s = (attempt n s, 1, []) := by
  intro fuel n s
  match fuel with
  | 0 => rfl
  | 1 => rfl
  | k+2 =>
    rcases h : attempt n s with ⟨r, s2⟩
    cases r with
    | ok d => simp [tenacityGo, h]
    | error e =>
      have hne := hattempt n s e (by rw [h])
      simp [tenacityGo, h, hne]

/-- Key fact: `_make_request` always collapses to a single execution of its body: every
exception it can raise is a wrapped `VoiceBotAPIError`, which the decorator's
`retry_if_exception_type((httpx.HTTPError, httpx.TimeoutException))` predicate
never matches. -/
theorem makeRequest_single (cfg : VoiceBotConfig) (env : Env) (args : ReqArgs)
    (s0 : CallState) :
    makeRequest cfg env args s0 = (makeRequestAttempt cfg env args 1 s0, 1, []) :=
  tenacityGo_not_retryable _ _ _
    (fun m t e h => makeRequestAttempt_error_not_retryable cfg env args m t e h)
    3 1 s0

/-! ## Claims -/

/-- C1 counterexample: with `max_retries = 5` and an upstream that times out on
every attempt (a permanently-failing retryable failure class), `_make_request`
performs exactly one attempt, not `max_retries` attempts: the timeout is
wrapped into `VoiceBotAPIError` inside the function body, so the decorator's
retry predicate never fires. -/
theorem C1_counterexample :
    (makeRequest ⟨"http://voicebot", "secret", "HS256", 30, none, 30, 5, 300⟩
        ⟨1000, fun _ _ _ => "tok", fun _ => "digest", true,
         fun _ => .missing, false, fun _ => .raiseTimeout "timed out"⟩
        ⟨"GET", "/api/v2/dashboard/business", [], none, true, none⟩
        (initCallState ⟨none, none⟩)).2.1 = 1 ∧
      (⟨"http://voicebot", "secret", "HS256", 30, none, 30, 5, 300⟩ :
          VoiceBotConfig).max_retries = 5 ∧
      (1 : Int) ≠ 5 := by
  refine ⟨?_, rfl, by decide⟩
  rw [makeRequest_single]

/-- C1 (amended): every `_make_request` call — in particular one whose upstream
permanently fails with a retryable failure class (timeout, transport error,
5xx) — performs exactly one attempt and sleeps no backoff delay at all: all
transport exceptions are wrapped into `VoiceBotAPIError` before the tenacity
predicate (which retries only httpx exception types) can observe them, and the
decorator's attempt budget is the hardcoded `stop_after_attempt(3)`,
independent of `max_retries`. -/
theorem C1_single_attempt_no_backoff (cfg : VoiceBotConfig) (env : Env)
    (args : ReqArgs) (s0 : CallState) :
    (makeRequest cfg env args s0).2.1 = 1 ∧
      (makeRequest cfg env args s0).2.2 = ([] : List Int) := by
  rw [makeRequest_single]
  exact ⟨rfl, rfl⟩

/-- C4: `_get_cached` never returns a cached payload once the lookup time has
reached the entry's `expires_at`: a read at or after expiry is a miss and the
expired entry is deleted from the store. -/
theorem C4_cache_expiry_is_miss (now : Int) (c : CachedResponse)
    (h : c.expires_at ≤ now) :
    getCached true now (.found c) = (none, true) := by
  simp only [getCached, if_true]
  rw [if_neg (not_lt.mpr h)]

theorem C4_witness :
    ((⟨[("k", "v")], 0, 500⟩ : CachedResponse).expires_at ≤ (500 : Int)) ∧
    getCached true 500 (.found ⟨[("k", "v")], 0, 500⟩) = (none, true) :=
  ⟨by decide, C4_cache_expiry_is_miss 500 ⟨[("k", "v")], 0, 500⟩ (by decide)⟩

/-- C5: `_cache_key` is order-independent: two parameter dicts holding the same
key-value pairs (keys are distinct, as in any Python dict) produce the same
cache key regardless of construction order, for any digest function. -/
theorem C5_cache_key_order_independent (md5hex12 : String → String)
    (endpoint : String) (p1 p2 : Payload) (hperm : p1.Perm p2)
    (hnd : (p1.map Prod.fst).Nodup) :
    cacheKey md5hex12 endpoint p1 = cacheKey md5hex12 endpoint p2 := by
  have hnd2 : (p2.map Prod.fst).Nodup := ((hperm.map Prod.fst).nodup_iff).mp hnd
  have hsort : p1.mergeSort keyLE = p2.mergeSort keyLE := by
    apply List.eq_of_perm_of_sorted
      (r := fun a b : String × String => a.1 < b.1)
    · exact (List.mergeSort_perm p1 keyLE).trans
        (hperm.trans (List.mergeSort_perm p2 keyLE).symm)
    · exact mergeSort_sorted_strict p1 hnd
    · exact mergeSort_sorted_strict p2 hnd2
  have hempty : p1.isEmpty = p2.isEmpty := by
    cases p1 <;> cases p2 <;> simp_all [List.Perm.nil_eq, List.isEmpty]
  simp only [cacheKey, sortedJson, hsort, hempty]

theorem C5_witness :
    ([(("b", "2") : String × String), ("a", "1")].Perm [("a", "1"), ("b", "2")]) ∧
    (([(("b", "2") : String × String), ("a", "1")].map Prod.fst).Nodup) ∧
    cacheKey (fun s => s) "/api/v2/dashboard/services" [("b", "2"), ("a", "1")] =
      cacheKey (fun s => s) "/api/v2/dashboard/services" [("a", "1"), ("b", "2")] :=
  ⟨by decide, by decide,
   C5_cache_key_order_independent (fun s => s) "/api/v2/dashboard/services"
     _ _ (by decide) (by decide)⟩

/-- C7 counterexample: constructing the configuration with every string field
empty and every numeric field non-positive succeeds — pydantic performs no
emptiness or positivity validation here, so construction does not fail. -/
theorem C7_counterexample :
    mkVoiceBotConfig "" "" "" 0 (some "") 0 (-1) (-5) =
      some ⟨"", "", "", 0, some "", 0, -1, -5⟩ := rfl

/-- C7 (amended): `VoiceBotConfig` construction never fails: the pydantic model
declares bare `str`/`int` fields with no validators, so every well-typed
combination of values — including empty strings and non-positive numbers — is
accepted, and a successfully constructed config can hold such values. -/
theorem C7_no_validation (b s a : String) (m : Int) (t : Option String)
    (u v w : Int) :
    mkVoiceBotConfig b s a m t u v w = some ⟨b, s, a, m, t, u, v, w⟩ := rfl

/-- C8: `_get_auth_headers` generates a new token exactly when no cached token
exists or the clock has reached the cached expiry minus the 5-minute renewal
window; a generated token records expiry `now + jwt_expire_minutes`, and the
returned `Authorization` header is derived from the current (possibly
just-renewed) token. The hypothesis states the client's well-formedness
invariant: `_jwt_token` and `_token_expires_at` are always set and cleared
together. -/
theorem C8_auth_header_refresh (encode : JwtPayload → String → String → String)
    (cfg : VoiceBotConfig) (now : Int) (st : TokenState)
    (hwf : st.jwt_token = none ↔ st.token_expires_at = none) :
    ((getAuthHeaders encode cfg now st).2.2 = true ↔
        st.jwt_token = none ∨
          ∃ e, st.token_expires_at = some e ∧ now ≥ e - 300)
      ∧ ((getAuthHeaders encode cfg now st).2.2 = true →
          (getAuthHeaders encode cfg now st).2.1.jwt_token =
              some (generateJwtToken encode cfg now).1 ∧
            (getAuthHeaders encode cfg now st).2.1.token_expires_at =
              some (now + 60 * cfg.jwt_expire_minutes))
      ∧ ((getAuthHeaders encode cfg now st).2.2 = false →
          (getAuthHeaders encode cfg now st).2.1 = st)
      ∧ (getAuthHeaders encode cfg now st).1.lookup "Authorization" =
          some ("Bearer " ++ tokenStr (getAuthHeaders encode cfg now st).2.1.jwt_token) := by
  obtain ⟨jt, te⟩ := st
  refine ⟨?_, ?_, ?_, ?_⟩
  · cases te with
    | none =>
      have hj : jt = none := hwf.mpr rfl
      subst hj
      simp [getAuthHeaders, needsRefresh]
    | some e =>
      cases jt with
      | none => simp [getAuthHeaders, needsRefresh]
      | some tkn => simp [getAuthHeaders, needsRefresh]
  · intro h
    simp only [getAuthHeaders] at h ⊢
    rw [h]
    exact ⟨rfl, rfl⟩
  · intro h
    simp only [getAuthHeaders] at h ⊢
    rw [h]
    simp
  · rcases hist : cfg.internal_service_token with _ | t
    · simp [getAuthHeaders, hist, List.lookup]
    · by_cases ht : t = "" <;> simp [getAuthHeaders, hist, ht, List.lookup]

theorem C8_witness :
    ((⟨some "T", some 1200⟩ : TokenState).jwt_token = none ↔
        (⟨some "T", some 1200⟩ : TokenState).token_expires_at = none) ∧
      (((getAuthHeaders (fun _ _ _ => "signed") ⟨"u", "s", "HS256", 30, none, 30, 3, 300⟩ 1000
            ⟨some "T", some 1200⟩).2.2 = true ↔
          (⟨some "T", some 1200⟩ : TokenState).jwt_token = none ∨
            ∃ e, (⟨some "T", some 1200⟩ : TokenState).token_expires_at = some e ∧
              (1000 : Int) ≥ e - 300)
        ∧ ((getAuthHeaders (fun _ _ _ => "signed") ⟨"u", "s", "HS256", 30, none, 30, 3, 300⟩ 1000
              ⟨some "T", some 1200⟩).2.2 = true →
            (getAuthHeaders (fun _ _ _ => "signed") ⟨"u", "s", "HS256", 30, none, 30, 3, 300⟩ 1000
                ⟨some "T", some 1200⟩).2.1.jwt_token =
                some (generateJwtToken (fun _ _ _ => "signed") ⟨"u", "s", "HS256", 30, none, 30, 3, 300⟩ 1000).1 ∧
              (getAuthHeaders (fun _ _ _ => "signed") ⟨"u", "s", "HS256", 30, none, 30, 3, 300⟩ 1000
                  ⟨some "T", some 1200⟩).2.1.token_expires_at =
                some (1000 + 60 * (⟨"u", "s", "HS256", 30, none, 30, 3, 300⟩ : VoiceBotConfig).jwt_expire_minutes))
        ∧ ((getAuthHeaders (fun _ _ _ => "signed") ⟨"u", "s", "HS256", 30, none, 30, 3, 300⟩ 1000
              ⟨some "T", some 1200⟩).2.2 = false →
            (getAuthHeaders (fun _ _ _ => "signed") ⟨"u", "s", "HS256", 30, none, 30, 3, 300⟩ 1000
                ⟨some "T", some 1200⟩).2.1 = ⟨some "T", some 1200⟩)
        ∧ (getAuthHeaders (fun _ _ _ => "signed") ⟨"u", "s", "HS256", 30, none, 30, 3, 300⟩ 1000
              ⟨some "T", some 1200⟩).1.lookup "Authorization" =
            some ("Bearer " ++ tokenStr (getAuthHeaders (fun _ _ _ => "signed")
              ⟨"u", "s", "HS256", 30, none, 30, 3, 300⟩ 1000 ⟨some "T", some 1200⟩).2.1.jwt_token)) :=
  ⟨by decide,
   C8_auth_header_refresh (fun _ _ _ => "signed") ⟨"u", "s", "HS256", 30, none, 30, 3, 300⟩ 1000
     ⟨some "T", some 1200⟩ (by decide)⟩

/-- The send phase leaves every cache counter untouched when the store guard
`method == "GET" and use_cache and cache_key` is false. -/
theorem attemptSend_counters (cfg : VoiceBotConfig) (env : Env) (args : ReqArgs)
    (ckey : Option String) (s : CallState)
    (h : (args.method == "GET" && args.use_cache && ckey.isSome) = false) :
    (attemptSend cfg env args ckey s).2.cacheReads = s.cacheReads ∧
      (attemptSend cfg env args ckey s).2.cacheSetCalls = s.cacheSetCalls ∧
      (attemptSend cfg env args ckey s).2.cacheWrite = s.cacheWrite := by
  simp only [attemptSend, h, Bool.false_eq_true, if_false]
  split <;> exact ⟨rfl, rfl, rfl⟩

/-- When the cache-check guard `method == "GET" and use_cache` is false, a full
`_make_request` call neither reads nor writes the cache. -/
theorem makeRequest_counters_no_cache (cfg : VoiceBotConfig) (env : Env)
    (args : ReqArgs) (tk : TokenState)
    (h : (args.method == "GET" && args.use_cache) = false) :
    (makeRequest cfg env args (initCallState tk)).1.2.cacheReads = 0 ∧
      (makeRequest cfg env args (initCallState tk)).1.2.cacheSetCalls = 0 ∧
      (makeRequest cfg env args (initCallState tk)).1.2.cacheWrite = none := by
  rw [makeRequest_single]
  simp only [makeRequestAttempt, h, if_neg]
  have := attemptSend_counters cfg env args none (initCallState tk)
    (by simp [h])
  simpa [initCallState] using this

/-- Structure-update congruence: the send phase never reads `env.cacheGet`. -/
theorem attemptSend_cacheGet_irrelevant (cfg : VoiceBotConfig) (env : Env)
    (args : ReqArgs) (ckey : Option String) (s : CallState)
    (g : String → CacheGetResult) :
    attemptSend cfg { env with cacheGet := g } args ckey s =
      attemptSend cfg env args ckey s := rfl

/-- A raising backend lookup and a missing key are indistinguishable misses. -/
theorem getCached_backendError_eq_missing (hasRedis : Bool) (now : Int) :
    getCached hasRedis now .backendError = getCached hasRedis now .missing := by
  simp [getCached]

/-- A `_make_request` attempt behaves identically whether the cache lookup
raises or simply misses. -/
theorem makeRequestAttempt_get_error_as_miss (cfg : VoiceBotConfig) (env : Env)
    (args : ReqArgs) (n : Nat) (s : CallState) :
    makeRequestAttempt cfg { env with cacheGet := fun _ => .backendError } args n s =
      makeRequestAttempt cfg { env with cacheGet := fun _ => .missing } args n s := by
  by_cases hc : (args.method == "GET" && args.use_cache) = true
  · simp only [makeRequestAttempt, hc, if_pos, getCached_backendError_eq_missing,
      attemptSend_cacheGet_irrelevant]
  · have hc' : (args.method == "GET" && args.use_cache) = false := by
      simpa using hc
    simp only [makeRequestAttempt, hc', Bool.false_eq_true, if_false,
      attemptSend_cacheGet_irrelevant]

/-- The result (not the cache-write effect) of the send phase is independent of
whether the cache store raises. -/
theorem attemptSend_setFails_result (cfg : VoiceBotConfig) (env : Env)
    (args : ReqArgs) (ckey : Option String) (s : CallState) (b : Bool) :
    (attemptSend cfg { env with cacheSetFails := b } args ckey s).1 =
      (attemptSend cfg env args ckey s).1 := by
  simp only [attemptSend]
  split <;> split <;> simp_all

/-- The result of a `_make_request` attempt is independent of whether the cache
store raises. -/
theorem makeRequestAttempt_setFails_result (cfg : VoiceBotConfig) (env : Env)
    (args : ReqArgs) (n : Nat) (s : CallState) (b : Bool) :
    (makeRequestAttempt cfg { env with cacheSetFails := b } args n s).1 =
      (makeRequestAttempt cfg env args n s).1 := by
  by_cases hc : (args.method == "GET" && args.use_cache) = true
  · simp only [makeRequestAttempt, hc, if_pos]
    rcases hg : (getCached env.hasRedis env.now
        (env.cacheGet (cacheKey env.md5hex12 args.endpoint args.params))).1 with _ | d
    · simp only [hg]
      exact attemptSend_setFails_result cfg env args _ _ b
    · simp [hg]
  · simp only [makeRequestAttempt, hc, if_neg]
    exact attemptSend_setFails_result cfg env args none s b

/-- On a 401 response the send phase clears the token state, performs no
further send and no token generation, and surfaces the re-wrapped
`VoiceBotAPIError` without a status code. -/
theorem attemptSend_401 (cfg : VoiceBotConfig) (env : Env) (args : ReqArgs)
    (ckey : Option String) (s : CallState) (content : Bool) (body : JsonBody)
    (text : String)
    (h401 : env.net s.sends = .response 401 content body text)
    (hvalid : needsRefresh env.now s.token = false) :
    attemptSend cfg env args ckey s =
      (.error (.api ⟨"Unexpected error for " ++ args.method ++ " " ++
          args.endpoint ++ ": " ++ "Authentication failed", none,
          some [("error", "Authentication failed")]⟩),
        { s with token := ⟨none, none⟩, sends := s.sends + 1 }) := by
  simp only [attemptSend, getAuthHeaders, hvalid, Bool.false_eq_true, if_false,
    h401, requestTry, translateExc, PyExc.str]
  simp

/-- C2 counterexample: with a currently-valid token and an upstream that
rejects the request with 401, the call performs zero token renewals and only
the one original send before surfacing an error — not "exactly one token
renewal and one additional send" — and the surfaced error is a
`VoiceBotAPIError` without status code, not a distinct unavailable-class error
produced after a renewed resend. -/
theorem C2_counterexample :
    (makeRequest ⟨"http://voicebot", "secret", "HS256", 30, none, 30, 3, 300⟩
        ⟨1000, fun _ _ _ => "tok", fun _ => "digest", true,
         fun _ => .missing, false,
         fun _ => .response 401 true (.parsed [("detail", "bad token")]) "x"⟩
        ⟨"GET", "/api/v2/dashboard/business", [], none, true, none⟩
        (initCallState ⟨some "T", some 10000⟩)).1.2.tokenGens = 0 ∧
      (makeRequest ⟨"http://voicebot", "secret", "HS256", 30, none, 30, 3, 300⟩
        ⟨1000, fun _ _ _ => "tok", fun _ => "digest", true,
         fun _ => .missing, false,
         fun _ => .response 401 true (.parsed [("detail", "bad token")]) "x"⟩
        ⟨"GET", "/api/v2/dashboard/business", [], none, true, none⟩
        (initCallState ⟨some "T", some 10000⟩)).1.2.sends = 1 := by
  rw [makeRequest_single]
  exact ⟨rfl, rfl⟩

/-- C2 (amended): when the upstream answers a request with 401, `_make_request`
clears the cached token under the lock (so only the next call regenerates) and
surfaces an error immediately: no token renewal and no additional send occur
within the call, there is no retry loop, and the error delivered to the caller
is the catch-all re-wrap of the 401-typed error — a `VoiceBotAPIError` with
`status_code = None` whose message embeds "Authentication failed". -/
theorem C2_auth_failure_no_renewal_no_resend (cfg : VoiceBotConfig) (env : Env)
    (args : ReqArgs) (tk : TokenState) (content : Bool) (body : JsonBody)
    (text : String)
    (h401 : env.net 0 = .response 401 content body text)
    (hmiss : (getCached env.hasRedis env.now
        (env.cacheGet (cacheKey env.md5hex12 args.endpoint args.params))).1 = none)
    (hvalid : needsRefresh env.now tk = false) :
    (makeRequest cfg env args (initCallState tk)).1.1 =
        .error (.api ⟨"Unexpected error for " ++ args.method ++ " " ++
          args.endpoint ++ ": " ++ "Authentication failed", none,
          some [("error", "Authentication failed")]⟩) ∧
      (makeRequest cfg env args (initCallState tk)).1.2.token = ⟨none, none⟩ ∧
      (makeRequest cfg env args (initCallState tk)).1.2.sends = 1 ∧
      (makeRequest cfg env args (initCallState tk)).1.2.tokenGens = 0 ∧
      (makeRequest cfg env args (initCallState tk)).2.1 = 1 := by
  rw [makeRequest_single]
  by_cases hc : (args.method == "GET" && args.use_cache) = true
  · simp only [makeRequestAttempt, hc, if_pos, hmiss]
    rw [attemptSend_401 cfg env args _ _ content body text h401 hvalid]
    simp [initCallState]
  · have hc' : (args.method == "GET" && args.use_cache) = false := by
      simpa using hc
    simp only [makeRequestAttempt, hc', Bool.false_eq_true, if_false]
    rw [attemptSend_401 cfg env args _ _ content body text h401 hvalid]
    simp [initCallState]

theorem C2_witness :
    ((⟨1000, fun _ _ _ => "tok", fun _ => "digest", true, fun _ => .missing,
        false, fun _ => .response 401 true (.parsed [("detail", "bad token")])
          "x"⟩ : Env).net 0 =
        .response 401 true (.parsed [("detail", "bad token")]) "x") ∧
      (needsRefresh 1000 ⟨some "T", some 10000⟩ = false) ∧
      ((makeRequest ⟨"http://voicebot", "secret", "HS256", 30, none, 30, 3, 300⟩
          ⟨1000, fun _ _ _ => "tok", fun _ => "digest", true, fun _ => .missing,
           false, fun _ => .response 401 true (.parsed [("detail", "bad token")])
             "x"⟩
          ⟨"GET", "/api/v2/dashboard/business", [], none, true, none⟩
          (initCallState ⟨some "T", some 10000⟩)).1.1 =
          .error (.api ⟨"Unexpected error for " ++ "GET" ++ " " ++
            "/api/v2/dashboard/business" ++ ": " ++ "Authentication failed",
            none, some [("error", "Authentication failed")]⟩) ∧
        (makeRequest ⟨"http://voicebot", "secret", "HS256", 30, none, 30, 3, 300⟩
          ⟨1000, fun _ _ _ => "tok", fun _ => "digest", true, fun _ => .missing,
           false, fun _ => .response 401 true (.parsed [("detail", "bad token")])
             "x"⟩
          ⟨"GET", "/api/v2/dashboard/business", [], none, true, none⟩
          (initCallState ⟨some "T", some 10000⟩)).1.2.token = ⟨none, none⟩ ∧
        (makeRequest ⟨"http://voicebot", "secret", "HS256", 30, none, 30, 3, 300⟩
          ⟨1000, fun _ _ _ => "tok", fun _ => "digest", true, fun _ => .missing,
           false, fun _ => .response 401 true (.parsed [("detail", "bad token")])
             "x"⟩
          ⟨"GET", "/api/v2/dashboard/business", [], none, true, none⟩
          (initCallState ⟨some "T", some 10000⟩)).1.2.sends = 1 ∧
        (makeRequest ⟨"http://voicebot", "secret", "HS256", 30, none, 30, 3, 300⟩
          ⟨1000, fun _ _ _ => "tok", fun _ => "digest", true, fun _ => .missing,
           false, fun _ => .response 401 true (.parsed [("detail", "bad token")])
             "x"⟩
          ⟨"GET", "/api/v2/dashboard/business", [], none, true, none⟩
          (initCallState ⟨some "T", some 10000⟩)).1.2.tokenGens = 0 ∧
        (makeRequest ⟨"http://voicebot", "secret", "HS256", 30, none, 30, 3, 300⟩
          ⟨1000, fun _ _ _ => "tok", fun _ => "digest", true, fun _ => .missing,
           false, fun _ => .response 401 true (.parsed [("detail", "bad token")])
             "x"⟩
          ⟨"GET", "/api/v2/dashboard/business", [], none, true, none⟩
          (initCallState ⟨some "T", some 10000⟩)).2.1 = 1) :=
  ⟨rfl, by decide,
   C2_auth_failure_no_renewal_no_resend
     ⟨"http://voicebot", "secret", "HS256", 30, none, 30, 3, 300⟩
     ⟨1000, fun _ _ _ => "tok", fun _ => "digest", true, fun _ => .missing,
      false, fun _ => .response 401 true (.parsed [("detail", "bad token")]) "x"⟩
     ⟨"GET", "/api/v2/dashboard/business", [], none, true, none⟩
     ⟨some "T", some 10000⟩ true (.parsed [("detail", "bad token")]) "x"
     rfl rfl (by decide)⟩

/-- C3: at the failing input — `GET /api/x` with a valid token, a cache miss
and an upstream 404 response with an empty body — the `VoiceBotAPIError`
delivered to the caller carries no status code at all (the catch-all
`except Exception` clause captures the function's own typed 404 error and
re-wraps it with `status_code=None`), and both its message and its response
data embed the internal exception text `str(e)` verbatim. -/
theorem C3_status_code_lost_and_text_leaked :
    (makeRequest ⟨"http://voicebot", "secret", "HS256", 30, none, 30, 3, 300⟩
        ⟨1000, fun _ _ _ => "tok", fun _ => "digest", true, fun _ => .missing,
         false, fun _ => .response 404 false (.parseError "Expecting value") ""⟩
        ⟨"GET", "/api/x", [], none, true, none⟩
        (initCallState ⟨some "T", some 10000⟩)).1.1 =
      .error (.api ⟨"Unexpected error for GET /api/x: Endpoint not found: /api/x",
        none, some [("error", "Endpoint not found: /api/x")]⟩) := by
  rw [makeRequest_single]
  rfl

/-- C6: a non-GET `_make_request` call never consults the cache before the
request and never writes it after a successful response, even when the caller
passes `use_cache=True`: the `method == "GET"` check precedes the cacheable
flag in both the lookup guard and the store guard. -/
theorem C6_non_get_bypasses_cache (cfg : VoiceBotConfig) (env : Env)
    (args : ReqArgs) (tk : TokenState) (h : args.method ≠ "GET") :
    (makeRequest cfg env args (initCallState tk)).1.2.cacheReads = 0 ∧
      (makeRequest cfg env args (initCallState tk)).1.2.cacheSetCalls = 0 ∧
      (makeRequest cfg env args (initCallState tk)).1.2.cacheWrite = none := by
  refine makeRequest_counters_no_cache cfg env args tk ?_
  have hb : (args.method == "GET") = false := by simpa using h
  simp [hb]

theorem C6_witness :
    ((⟨"POST", "/api/v2/dashboard/services", [], none, true, none⟩ :
        ReqArgs).method ≠ "GET") ∧
      ((makeRequest ⟨"http://voicebot", "secret", "HS256", 30, none, 30, 3, 300⟩
          ⟨1000, fun _ _ _ => "tok", fun _ => "digest", true, fun _ => .missing,
           false, fun _ => .response 200 true (.parsed [("ok", "1")]) "x"⟩
          ⟨"POST", "/api/v2/dashboard/services", [], none, true, none⟩
          (initCallState ⟨some "T", some 10000⟩)).1.2.cacheReads = 0 ∧
        (makeRequest ⟨"http://voicebot", "secret", "HS256", 30, none, 30, 3, 300⟩
          ⟨1000, fun _ _ _ => "tok", fun _ => "digest", true, fun _ => .missing,
           false, fun _ => .response 200 true (.parsed [("ok", "1")]) "x"⟩
          ⟨"POST", "/api/v2/dashboard/services", [], none, true, none⟩
          (initCallState ⟨some "T", some 10000⟩)).1.2.cacheSetCalls = 0 ∧
        (makeRequest ⟨"http://voicebot", "secret", "HS256", 30, none, 30, 3, 300⟩
          ⟨1000, fun _ _ _ => "tok", fun _ => "digest", true, fun _ => .missing,
           false, fun _ => .response 200 true (.parsed [("ok", "1")]) "x"⟩
          ⟨"POST", "/api/v2/dashboard/services", [], none, true, none⟩
          (initCallState ⟨some "T", some 10000⟩)).1.2.cacheWrite = none) :=
  ⟨by decide,
   C6_non_get_bypasses_cache
     ⟨"http://voicebot", "secret", "HS256", 30, none, 30, 3, 300⟩
     ⟨1000, fun _ _ _ => "tok", fun _ => "digest", true, fun _ => .missing,
      false, fun _ => .response 200 true (.parsed [("ok", "1")]) "x"⟩
     ⟨"POST", "/api/v2/dashboard/services", [], none, true, none⟩
     ⟨some "T", some 10000⟩ (by decide)⟩

/-- C9: cache backend failures are invisible to the caller: a raising cache
lookup produces exactly the same call result as a missing key, and the call
result is independent of whether the cache store raises — the exceptions are
swallowed inside `_get_cached` / `_set_cached` and never surface. -/
theorem C9_cache_backend_failures_invisible (cfg : VoiceBotConfig) (env : Env)
    (args : ReqArgs) (tk : TokenState) :
    ((makeRequest cfg { env with cacheGet := fun _ => .backendError } args
          (initCallState tk)).1.1 =
        (makeRequest cfg { env with cacheGet := fun _ => .missing } args
          (initCallState tk)).1.1) ∧
      ((makeRequest cfg { env with cacheSetFails := true } args
          (initCallState tk)).1.1 =
        (makeRequest cfg { env with cacheSetFails := false } args
          (initCallState tk)).1.1) := by
  constructor
  · rw [makeRequest_single, makeRequest_single,
      makeRequestAttempt_get_error_as_miss]
  · rw [makeRequest_single, makeRequest_single]
    exact (makeRequestAttempt_setFails_result cfg env args 1
        (initCallState tk) true).trans
      (makeRequestAttempt_setFails_result cfg env args 1
        (initCallState tk) false).symm

/-- C10: `health_check` is total — for every environment it returns a
dictionary whose status is "healthy" exactly when the underlying request
succeeds (carrying the upstream payload) and "unhealthy" otherwise (carrying
an error description) — and it never consults or populates the response cache
(`use_cache=False`). -/
theorem C10_health_check_total_no_cache (cfg : VoiceBotConfig) (env : Env)
    (tk : TokenState) :
    ((healthCheck cfg env tk).1.status =
        if (makeRequest cfg env ⟨"GET", "/", [], none, false, none⟩
            (initCallState tk)).1.1.isOk then "healthy" else "unhealthy") ∧
      ((healthCheck cfg env tk).1.voice_bot.isSome =
        (makeRequest cfg env ⟨"GET", "/", [], none, false, none⟩
          (initCallState tk)).1.1.isOk) ∧
      ((healthCheck cfg env tk).1.error.isNone =
        (makeRequest cfg env ⟨"GET", "/", [], none, false, none⟩
          (initCallState tk)).1.1.isOk) ∧
      (healthCheck cfg env tk).2.cacheReads = 0 ∧
      (healthCheck cfg env tk).2.cacheSetCalls = 0 ∧
      (healthCheck cfg env tk).2.cacheWrite = none := by
  have hcnt := makeRequest_counters_no_cache cfg env
    ⟨"GET", "/", [], none, false, none⟩ tk rfl
  rcases hr : (makeRequest cfg env ⟨"GET", "/", [], none, false, none⟩
      (initCallState tk)).1.1 with e | d <;>
    simp only [healthCheck, hr] <;>
    simp [Except.isOk, Except.toBool, hcnt.1, hcnt.2.1, hcnt.2.2]

end VoiceBot
